import Mathlib

/-!
Verification of the loan application app (src/app.py), a Streamlit + sqlite
single-file program.  Pure Python functions are embedded as Lean functions;
the sqlite tables become lists of records and the form handlers become
explicit state-passing functions.  Python floats (sqlite REAL) are modelled
as rationals, timestamps as natural numbers counting days.
-/

namespace LoanApp

/-- Python's `str.lower()` on the ASCII strings this app compares:
lowercase each character.  (Extensionally this is `String.toLower`, i.e.
`String.map Char.toLower`; it is written via `List.map` over the character
data so that concrete instances evaluate by kernel reduction.) -/
def strLower (s : String) : String :=
  ⟨s.data.map Char.toLower⟩

/-- Embedding of `calculate_credit_score` (src/app.py lines 110-139).
The Python function starts from `base_score = 600` and performs three
sequential `+=` steps (income bracket, employment-status dictionary lookup on
the lowercased string, payment-history threshold), then clamps with
`max(300, min(850, base_score))`.  The sequential additions are written as one
left-associated sum. -/
def calculate_credit_score (income : ℚ) (employment_status : String)
    (payment_history : ℚ) : Int :=
  max 300 (min 850
    (600
      + (if income ≥ 100000 then 100
         else if income ≥ 70000 then 70
         else if income ≥ 50000 then 40
         else if income ≥ 30000 then 20
         else 0)
      + (if strLower employment_status = "employed" then 50
         else if strLower employment_status = "self-employed" then 30
         else if strLower employment_status = "unemployed" then -50
         else if strLower employment_status = "student" then 10
         else if strLower employment_status = "retired" then 20
         else 0)
      + (if payment_history > mkRat 9 10 then 50
         else if payment_history > mkRat 7 10 then 0
         else -50)))

/-- Embedding of `calculate_civil_score` (src/app.py lines 141-167):
`base_score = 50`, plus an age bonus, an employment bonus (case-insensitive
comparison), and a credit-tier bonus, clamped with `max(0, min(100, ...))`. -/
def calculate_civil_score (age : Int) (employment_status : String)
    (credit_score : Int) : Int :=
  max 0 (min 100
    (50
      + (if age ≥ 25 ∧ age ≤ 60 then 30
         else if age > 60 then 20
         else 10)
      + (if strLower employment_status = "employed" then 30
         else if strLower employment_status = "self-employed" then 20
         else 10)
      + (if credit_score ≥ 700 then 20
         else if credit_score ≥ 600 then 10
         else 0)))

/-- The interest-rate arm of the breakpoint table in the loan application
handler (src/app.py lines 499-513). -/
def interestRate (credit_score : Int) : ℚ :=
  if credit_score ≥ 750 then mkRat 11 2
  else if credit_score ≥ 700 then mkRat 13 2
  else if credit_score ≥ 650 then 8
  else if credit_score ≥ 600 then mkRat 21 2
  else 15

/-- The approval-chance arm of the same breakpoint table
(src/app.py lines 499-513). -/
def approvalChance (credit_score : Int) : String :=
  if credit_score ≥ 750 then "Very High"
  else if credit_score ≥ 700 then "High"
  else if credit_score ≥ 650 then "Moderate"
  else if credit_score ≥ 600 then "Low"
  else "Very Low"

/-- The handler's defaulting of the stored credit score (src/app.py lines
494-497): `int(profile[4])` when the column is present and parseable,
otherwise 300.  `none` models a NULL or unparseable column value. -/
def effectiveCreditScore (profile_credit : Option Int) : Int :=
  profile_credit.getD 300

/-- The handler's defaulting of the stored income (src/app.py line 523):
`profile[2] if profile[2] is not None else 0`. -/
def effectiveIncome (profile_income : Option ℚ) : ℚ :=
  profile_income.getD 0

/-- The submission decision (src/app.py lines 524-529):
`"approved"` when `credit_score >= 650 and loan_amount <= income * mkRat 1 2`,
else `"pending"`. -/
def loanStatus (credit_score : Int) (income : ℚ) (loan_amount : ℚ) : String :=
  if credit_score ≥ 650 ∧ loan_amount ≤ income * mkRat 1 2 then "approved"
  else "pending"

/-- A row of the `users` table (src/app.py lines 24-30).  `id` models the
autoincrement primary key; `created_at` the insertion timestamp. -/
structure User where
  id : Nat
  username : String
  password : String
  full_name : String
  email : String
  created_at : Nat
deriving DecidableEq

/-- A row of the `user_profiles` table (src/app.py lines 33-42).  The
`income`, `credit_score` and `civil_score` columns are nullable, hence
`Option`. -/
structure Profile where
  id : Nat
  user_id : Nat
  age : Int
  income : Option ℚ
  employment_status : String
  credit_score : Option Int
  civil_score : Option Int
  last_updated : Nat
deriving DecidableEq

/-- A row of the `loans` table (src/app.py lines 45-56).  `approved_date`
and `due_date` are nullable columns; `penalty_rate` defaults to 0.05. -/
structure Loan where
  id : Nat
  user_id : Nat
  amount : ℚ
  interest_rate : ℚ
  term_months : Nat
  status : String
  application_date : Nat
  approved_date : Option Nat
  due_date : Option Nat
  penalty_rate : ℚ
deriving DecidableEq

/-- A row of the `payments` table (src/app.py lines 59-64). -/
structure Payment where
  id : Nat
  loan_id : Nat
  amount : ℚ
  payment_date : Nat
deriving DecidableEq

/-- The sqlite database `loan_app.db`: its four tables as lists of rows in
insertion order.  No handler ever deletes a row, so the autoincrement ids are
modelled as `length + 1` at insertion time. -/
structure DB where
  users : List User
  profiles : List Profile
  loans : List Loan
  payments : List Payment
deriving DecidableEq

/-- Embedding of `register_user` (src/app.py lines 181-194).  The `INSERT`
hits the `UNIQUE` constraint on `username` exactly when a row with that
username already exists; `sqlite3.IntegrityError` is then reported as
`(False, "Username already exists")`.  Otherwise one row is inserted and the
function reports `(True, "Registration successful")`.  SHA-256 password
hashing (`hash_password`, lines 80-81) is kept abstract as a parameter. -/
def register_user (hash_password : String → String) (db : DB)
    (username password full_name email : String) (now : Nat) :
    (Bool × String) × DB :=
  if db.users.any (fun u => u.username == username) then
    ((false, "Username already exists"), db)
  else
    ((true, "Registration successful"),
     { db with users := db.users ++
        [{ id := db.users.length + 1, username := username,
           password := hash_password password, full_name := full_name,
           email := email, created_at := now }] })

/-- The profile form handler (src/app.py lines 388-401): compute the credit
and civil scores and insert one `user_profiles` row. -/
def saveProfile (db : DB) (user_id : Nat) (age : Int) (income : ℚ)
    (employment_status : String) (payment_history : ℚ) (now : Nat) : DB :=
  let credit_score := calculate_credit_score income employment_status payment_history
  let civil_score := calculate_civil_score age employment_status credit_score
  { db with profiles := db.profiles ++
     [{ id := db.profiles.length + 1, user_id := user_id, age := age,
        income := some income, employment_status := employment_status,
        credit_score := some credit_score, civil_score := some civil_score,
        last_updated := now }] }

/-- The loan row built by the submission handler (src/app.py lines 518-548):
credit score defaulted to 300, income defaulted to 0, the breakpoint-table
rate, the auto-approval decision, and — only in the approved case —
`approved_date = application_date = now` and
`due_date = now + loan_term * 30` days (`timedelta(days=loan_term*30)`). -/
def applyLoan (user_id : Nat) (profile_credit : Option Int)
    (profile_income : Option ℚ) (loan_amount : ℚ) (loan_term : Nat)
    (now : Nat) (next_id : Nat) : Loan :=
  let credit_score := effectiveCreditScore profile_credit
  let income := effectiveIncome profile_income
  let status := loanStatus credit_score income loan_amount
  { id := next_id
    user_id := user_id
    amount := loan_amount
    interest_rate := interestRate credit_score
    term_months := loan_term
    status := status
    application_date := now
    approved_date := if status = "approved" then some now else none
    due_date := if status = "approved" then some (now + loan_term * 30) else none
    penalty_rate := mkRat 1 20 }

/-- The submission handler's `INSERT INTO loans` (src/app.py lines 543-547)
at the database level. -/
def applyLoanDB (db : DB) (user_id : Nat) (profile_credit : Option Int)
    (profile_income : Option ℚ) (loan_amount : ℚ) (loan_term : Nat)
    (now : Nat) : DB :=
  { db with loans := db.loans ++
      [applyLoan user_id profile_credit profile_income loan_amount loan_term
        now (db.loans.length + 1)] }

/-- The admin status update on one loan row (src/app.py lines 683-702):
setting status to `"approved"` also sets `approved_date = now` and
`due_date = now + term_months * 30` days; any other status only rewrites
the status column. -/
def updateLoanStatus (loan : Loan) (new_status : String) (now : Nat) : Loan :=
  if new_status = "approved" then
    { loan with
        status := new_status
        approved_date := some now
        due_date := some (now + loan.term_months * 30) }
  else
    { loan with status := new_status }

/-- The admin `UPDATE loans ... WHERE id = ?` (src/app.py lines 683-702) at
the database level. -/
def updateLoanStatusDB (db : DB) (loan_id : Nat) (new_status : String)
    (now : Nat) : DB :=
  { db with loans := db.loans.map (fun l =>
      if l.id = loan_id then updateLoanStatus l new_status now else l) }

/-- The payment handler (src/app.py lines 593-620).  The payment widget is
rendered only for loans with status `"approved"` and bounds the amount to
`min_value=1.0, max_value=float(loan[2])`, i.e. `1 ≤ p ≤ loan.amount`; a
value outside those bounds cannot be submitted, which is modelled by
returning `none`.  On submission one `payments` row is inserted and
`UPDATE loans SET amount = ?` stores `loan[2] - payment_amount` for the row
with the fetched loan's id. -/
def makePayment (db : DB) (loan_id : Nat) (payment_amount : ℚ)
    (now : Nat) : Option DB :=
  match db.loans.find? (fun l => l.id == loan_id) with
  | none => none
  | some loan =>
      if loan.status = "approved" ∧ 1 ≤ payment_amount ∧
          payment_amount ≤ loan.amount then
        some { db with
          payments := db.payments ++
            [{ id := db.payments.length + 1, loan_id := loan_id,
               amount := payment_amount, payment_date := now }],
          loans := db.loans.map (fun l =>
            if l.id = loan_id then { l with amount := loan.amount - payment_amount }
            else l) }
      else none

/-- One state-mutating user interaction: every handler of the app that
writes to the database (src/app.py: registration, profile form, loan
submission, admin status update, payment). -/
inductive Step : DB → DB → Prop where
  | reg (hash_password : String → String) (db : DB)
      (username password full_name email : String) (now : Nat) :
      Step db (register_user hash_password db username password full_name email now).2
  | prof (db : DB) (user_id : Nat) (age : Int) (income : ℚ)
      (employment_status : String) (payment_history : ℚ) (now : Nat) :
      Step db (saveProfile db user_id age income employment_status payment_history now)
  | apply (db : DB) (user_id : Nat) (profile_credit : Option Int)
      (profile_income : Option ℚ) (loan_amount : ℚ) (loan_term : Nat) (now : Nat) :
      Step db (applyLoanDB db user_id profile_credit profile_income loan_amount loan_term now)
  | upd (db : DB) (loan_id : Nat) (new_status : String) (now : Nat) :
      Step db (updateLoanStatusDB db loan_id new_status now)
  | pay (db db' : DB) (loan_id : Nat) (payment_amount : ℚ) (now : Nat)
      (h : makePayment db loan_id payment_amount now = some db') :
      Step db db'

/-- The credit-score algorithm as the spec words it (§4.2): start at 600; add
the income-bracket bonus; add the employment bonus from the spec's table,
listed in the spec's order (employed, self-employed, student, retired,
unemployed, unrecognized), matched case-insensitively; add the
payment-history bonus; clamp to [300, 850].  Stated separately from
`calculate_credit_score` so that the spec's wording can be compared with the
code. -/
def creditScoreSpecModel (income : ℚ) (employment_status : String)
    (payment_history : ℚ) : Int :=
  max 300 (min 850
    (600
      + (if income ≥ 100000 then 100
         else if income ≥ 70000 then 70
         else if income ≥ 50000 then 40
         else if income ≥ 30000 then 20
         else 0)
      + (if strLower employment_status = "employed" then 50
         else if strLower employment_status = "self-employed" then 30
         else if strLower employment_status = "student" then 10
         else if strLower employment_status = "retired" then 20
         else if strLower employment_status = "unemployed" then -50
         else 0)
      + (if payment_history > mkRat 9 10 then 50
         else if payment_history > mkRat 7 10 then 0
         else -50)))

/-- The civil-score algorithm as the spec words it (§4.3): start at 50; add
the age bonus (25-60 inclusive: +30, above 60: +20, else +10); add the
employment bonus (employed: +30, self-employed: +20, else +10,
case-insensitive); add the credit-tier bonus (at least 700: +20, at least
600: +10, else +0); clamp to [0, 100]. -/
def civilScoreSpecModel (age : Int) (employment_status : String)
    (credit_score : Int) : Int :=
  max 0 (min 100
    (50
      + (if 25 ≤ age ∧ age ≤ 60 then 30
         else if 60 < age then 20
         else 10)
      + (if strLower employment_status = "employed" then 30
         else if strLower employment_status = "self-employed" then 20
         else 10)
      + (if 700 ≤ credit_score then 20
         else if 600 ≤ credit_score then 10
         else 0)))

/-- A concrete approved loan used to instantiate the payment theorems:
id 1, remaining amount 500. -/
def loanW : Loan :=
  { id := 1
    user_id := 1
    amount := 500
    interest_rate := 8
    term_months := 12
    status := "approved"
    application_date := 0
    approved_date := some 0
    due_date := some 360
    penalty_rate := mkRat 1 20 }

/-- A concrete database holding only `loanW`. -/
def dbW : DB := { users := [], profiles := [], loans := [loanW], payments := [] }

/-- The database after a payment of 300 against `loanW` in `dbW` on day 7. -/
def dbW2 : DB :=
  { users := []
    profiles := []
    loans := [{ loanW with amount := 500 - 300 }]
    payments := [{ id := 1, loan_id := 1, amount := 300, payment_date := 7 }] }

/-- The empty database and the database after registering the user `alice`,
used to instantiate the registration theorem. -/
def dbEmpty : DB := { users := [], profiles := [], loans := [], payments := [] }

/-- The database after one successful registration of `alice` into
`dbEmpty` (password hashing instantiated with the identity function). -/
def dbAlice : DB :=
  (register_user id dbEmpty "alice" "pw" "Alice A" "alice@mail.test" 0).2

lemma clamp300_850 (x : Int) :
    300 ≤ max 300 (min 850 x) ∧ max 300 (min 850 x) ≤ 850 := by omega

/-- Every state-mutating handler only ever appends to the `payments` table:
no payment row is updated or deleted by any operation of the app. -/
lemma step_payments_append (db1 db2 : DB) (h : Step db1 db2) :
    ∃ tail, db2.payments = db1.payments ++ tail := by
  cases h with
  | reg hash_password username password full_name email now =>
      unfold register_user
      split_ifs <;> exact ⟨[], (List.append_nil _).symm⟩
  | prof user_id age income employment_status payment_history now =>
      exact ⟨[], (List.append_nil _).symm⟩
  | apply user_id profile_credit profile_income loan_amount loan_term now =>
      exact ⟨[], (List.append_nil _).symm⟩
  | upd loan_id new_status now =>
      exact ⟨[], (List.append_nil _).symm⟩
  | pay db0 dbp loan_id payment_amount now h =>
      unfold makePayment at h
      cases hf : db1.loans.find? (fun l => l.id == loan_id) with
      | none =>
          simp only [hf] at h
          exact Option.noConfusion h
      | some loan =>
          simp only [hf] at h
          split_ifs at h with hcond
          · injection h with h2
            exact ⟨_, congrArg DB.payments h2.symm⟩

/-- Claim C2: `calculate_credit_score` is a pure function of its three
inputs equal to the spec's formula (base 600, income band bonus,
case-insensitive employment bonus, payment-history bonus, clamped to
[300, 850]); in particular it maps (120000, "employed", 0.95) to 800. -/
theorem calculate_credit_score_spec :
    (∀ (income : ℚ) (employment_status : String) (payment_history : ℚ),
      calculate_credit_score income employment_status payment_history =
        creditScoreSpecModel income employment_status payment_history) ∧
    calculate_credit_score 120000 "employed" (mkRat 19 20) = 800 := by
  constructor
  · intro income employment_status payment_history
    unfold calculate_credit_score creditScoreSpecModel
    by_cases h1 : strLower employment_status = "employed" <;>
      by_cases h2 : strLower employment_status = "self-employed" <;>
        by_cases h3 : strLower employment_status = "unemployed" <;>
          by_cases h4 : strLower employment_status = "student" <;>
            by_cases h5 : strLower employment_status = "retired" <;>
              simp_all
  · decide

/-- Claim C7: `calculate_civil_score` equals the spec's formula (base 50,
age bonus, case-insensitive employment bonus, credit-tier bonus, clamped to
[0, 100]); in particular it maps (30, "Employed", 720) to 100 (raw sum 130,
clamped). -/
theorem calculate_civil_score_spec :
    (∀ (age : Int) (employment_status : String) (credit_score : Int),
      calculate_civil_score age employment_status credit_score =
        civilScoreSpecModel age employment_status credit_score) ∧
    calculate_civil_score 30 "Employed" 720 = 100 := by
  constructor
  · intro age employment_status credit_score
    unfold calculate_civil_score civilScoreSpecModel
    rfl
  · decide

/-- Claim C8: for every income at least 0, every employment-status string and
every payment-history ratio in [0, 1], `calculate_credit_score` lands in
[300, 850]. -/
theorem calculate_credit_score_range (income : ℚ) (employment_status : String)
    (payment_history : ℚ) (hinc : 0 ≤ income) (hph0 : 0 ≤ payment_history)
    (hph1 : payment_history ≤ 1) :
    300 ≤ calculate_credit_score income employment_status payment_history ∧
      calculate_credit_score income employment_status payment_history ≤ 850 := by
  unfold calculate_credit_score
  exact clamp300_850 _

/-- The range theorem instantiated at income 50000, employment "employed",
payment-history ratio 4/5. -/
theorem calculate_credit_score_range_witness :
    300 ≤ calculate_credit_score 50000 "employed" (mkRat 4 5) ∧
      calculate_credit_score 50000 "employed" (mkRat 4 5) ≤ 850 :=
  calculate_credit_score_range 50000 "employed" (mkRat 4 5) (by decide)
    (by decide) (by decide)

/-- Claim C1: a submitted loan application is created with status
"approved" exactly when the applicant's credit score (defaulted to 300 when
absent or unparseable) is at least 650 and the loan amount is at most half
the annual income (defaulted to 0 when missing); in every other case the
status is "pending".  The submission handler inserts exactly that row. -/
theorem applyLoan_auto_approval (db : DB) (user_id : Nat)
    (profile_credit : Option Int) (profile_income : Option ℚ)
    (loan_amount : ℚ) (loan_term now next_id : Nat) :
    ((applyLoan user_id profile_credit profile_income loan_amount loan_term now
        next_id).status = "approved" ↔
      650 ≤ profile_credit.getD 300 ∧
        loan_amount ≤ mkRat 1 2 * profile_income.getD 0) ∧
    ((applyLoan user_id profile_credit profile_income loan_amount loan_term now
        next_id).status = "approved" ∨
      (applyLoan user_id profile_credit profile_income loan_amount loan_term now
        next_id).status = "pending") ∧
    (applyLoanDB db user_id profile_credit profile_income loan_amount loan_term
        now).loans =
      db.loans ++ [applyLoan user_id profile_credit profile_income loan_amount
        loan_term now (db.loans.length + 1)] := by
  refine ⟨?_, ?_, rfl⟩
  · show loanStatus (effectiveCreditScore profile_credit)
        (effectiveIncome profile_income) loan_amount = "approved" ↔ _
    unfold loanStatus effectiveCreditScore effectiveIncome
    rw [mul_comm (Option.getD profile_income 0) (mkRat 1 2)]
    split_ifs with h
    · simp [h]
    · simp [h]
  · show loanStatus (effectiveCreditScore profile_credit)
        (effectiveIncome profile_income) loan_amount = "approved" ∨
      loanStatus (effectiveCreditScore profile_credit)
        (effectiveIncome profile_income) loan_amount = "pending"
    unfold loanStatus
    split_ifs <;> simp

/-- Claim C3: the interest rate and approval-chance label are a pure step
function of the credit score with breakpoints at 750, 700, 650 and 600, and
the rate stored on a submitted loan is that function of the defaulted
profile score; score 680 gives (8.0, "Moderate") and score 750 gives
(5.5, "Very High"). -/
theorem rate_label_step (user_id : Nat) (profile_credit : Option Int)
    (profile_income : Option ℚ) (loan_amount : ℚ)
    (loan_term now next_id : Nat) :
    ((applyLoan user_id profile_credit profile_income loan_amount loan_term now
        next_id).interest_rate = interestRate (profile_credit.getD 300)) ∧
    (∀ cs : Int, 750 ≤ cs →
      interestRate cs = mkRat 11 2 ∧ approvalChance cs = "Very High") ∧
    (∀ cs : Int, 700 ≤ cs → cs < 750 →
      interestRate cs = mkRat 13 2 ∧ approvalChance cs = "High") ∧
    (∀ cs : Int, 650 ≤ cs → cs < 700 →
      interestRate cs = 8 ∧ approvalChance cs = "Moderate") ∧
    (∀ cs : Int, 600 ≤ cs → cs < 650 →
      interestRate cs = mkRat 21 2 ∧ approvalChance cs = "Low") ∧
    (∀ cs : Int, cs < 600 →
      interestRate cs = 15 ∧ approvalChance cs = "Very Low") ∧
    (interestRate 680 = 8 ∧ approvalChance 680 = "Moderate") ∧
    (interestRate 750 = mkRat 11 2 ∧ approvalChance 750 = "Very High") := by
  refine ⟨rfl, ?_, ?_, ?_, ?_, ?_, by decide, by decide⟩ <;>
    · intro cs
      intros
      unfold interestRate approvalChance
      split_ifs <;> first | exact ⟨rfl, rfl⟩ | (exfalso; omega)

/-- The step-function theorem instantiated at score 720: rate 6.5 and label
"High". -/
theorem rate_label_step_witness :
    interestRate 720 = mkRat 13 2 ∧ approvalChance 720 = "High" :=
  (rate_label_step 1 (some 720) none 1000 12 0 1).2.2.1 720 (by decide)
    (by decide)

/-- Claim C9: a loan approved at submission gets approved date `now` and due
date `now + term * 30` days; a loan created pending has both unset; an admin
update to "approved" sets approved date `now` and due date
`now + term_months * 30` days. -/
theorem approval_sets_dates (user_id : Nat) (profile_credit : Option Int)
    (profile_income : Option ℚ) (loan_amount : ℚ)
    (loan_term now next_id : Nat) (loan : Loan) (now2 : Nat) :
    ((applyLoan user_id profile_credit profile_income loan_amount loan_term now
        next_id).status = "approved" →
      (applyLoan user_id profile_credit profile_income loan_amount loan_term now
        next_id).approved_date = some now ∧
      (applyLoan user_id profile_credit profile_income loan_amount loan_term now
        next_id).due_date = some (now + loan_term * 30)) ∧
    ((applyLoan user_id profile_credit profile_income loan_amount loan_term now
        next_id).status = "pending" →
      (applyLoan user_id profile_credit profile_income loan_amount loan_term now
        next_id).approved_date = none ∧
      (applyLoan user_id profile_credit profile_income loan_amount loan_term now
        next_id).due_date = none) ∧
    ((updateLoanStatus loan "approved" now2).approved_date = some now2 ∧
      (updateLoanStatus loan "approved" now2).due_date =
        some (now2 + loan.term_months * 30)) := by
  refine ⟨fun hs => ?_, fun hs => ?_, ?_⟩
  · unfold applyLoan at hs ⊢
    dsimp only at hs ⊢
    rw [if_pos hs, if_pos hs]
    exact ⟨rfl, rfl⟩
  · unfold applyLoan at hs ⊢
    dsimp only at hs ⊢
    have hne : loanStatus (effectiveCreditScore profile_credit)
        (effectiveIncome profile_income) loan_amount ≠ "approved" := by
      rw [hs]; decide
    rw [if_neg hne, if_neg hne]
    exact ⟨rfl, rfl⟩
  · unfold updateLoanStatus
    rw [if_pos rfl]
    exact ⟨rfl, rfl⟩

/-- The dates theorem instantiated at an auto-approved application
(score 700, income 100000, amount 40000, term 12, day 5): approved date 5,
due date 365. -/
theorem approval_sets_dates_witness :
    (applyLoan 1 (some 700) (some 100000) 40000 12 5 1).approved_date =
        some 5 ∧
      (applyLoan 1 (some 700) (some 100000) 40000 12 5 1).due_date =
        some 365 :=
  (approval_sets_dates 1 (some 700) (some 100000) 40000 12 5 1 loanW 0).1
    (by norm_num [applyLoan, loanStatus, effectiveCreditScore, effectiveIncome,
      Rat.mkRat_eq_divInt, Rat.divInt_eq_div])

/-- Claim C10: every loan auto-approved at submission carries an interest
rate of at most 8.0, and a submitted loan whose stored rate is 10.5 or 15.0
was necessarily created pending. -/
theorem auto_approved_rate_bound (user_id : Nat) (profile_credit : Option Int)
    (profile_income : Option ℚ) (loan_amount : ℚ)
    (loan_term now next_id : Nat) :
    ((applyLoan user_id profile_credit profile_income loan_amount loan_term now
        next_id).status = "approved" →
      (applyLoan user_id profile_credit profile_income loan_amount loan_term now
        next_id).interest_rate ≤ 8) ∧
    (((applyLoan user_id profile_credit profile_income loan_amount loan_term now
        next_id).interest_rate = mkRat 21 2 ∨
      (applyLoan user_id profile_credit profile_income loan_amount loan_term now
        next_id).interest_rate = 15) →
      (applyLoan user_id profile_credit profile_income loan_amount loan_term now
        next_id).status = "pending") := by
  constructor
  · intro hs
    replace hs : loanStatus (effectiveCreditScore profile_credit)
        (effectiveIncome profile_income) loan_amount = "approved" := hs
    show interestRate (effectiveCreditScore profile_credit) ≤ 8
    unfold loanStatus at hs
    split_ifs at hs with h
    · obtain ⟨h1, _⟩ := h
      unfold interestRate
      split_ifs <;> first | decide | (exfalso; omega)
    · exact absurd hs (by decide)
  · intro hr
    replace hr : interestRate (effectiveCreditScore profile_credit) = mkRat 21 2 ∨
        interestRate (effectiveCreditScore profile_credit) = 15 := hr
    show loanStatus (effectiveCreditScore profile_credit)
        (effectiveIncome profile_income) loan_amount = "pending"
    unfold loanStatus
    split_ifs with h
    · exfalso
      obtain ⟨h1, _⟩ := h
      unfold interestRate at hr
      split_ifs at hr <;>
        rcases hr with hr | hr <;>
          first | exact absurd hr (by decide) | omega
    · rfl

/-- The rate-bound theorem instantiated at an auto-approved application:
score 700 gives rate 6.5, which is at most 8. -/
theorem auto_approved_rate_bound_witness :
    (applyLoan 1 (some 700) (some 100000) 40000 12 0 1).interest_rate ≤ 8 :=
  (auto_approved_rate_bound 1 (some 700) (some 100000) 40000 12 0 1).1
    (by norm_num [applyLoan, loanStatus, effectiveCreditScore, effectiveIncome,
      Rat.mkRat_eq_divInt, Rat.divInt_eq_div])

/-- Claim C4: for an approved loan, a payment above the remaining balance is
rejected, a payment equal to the remaining balance is accepted (given the
widget's lower bound of 1), and every accepted payment satisfies
`0 < payment ≤ remaining amount`. -/
theorem makePayment_bounds (db : DB) (lid : Nat) (loan : Loan) (p : ℚ)
    (now : Nat)
    (hfind : db.loans.find? (fun l => l.id == lid) = some loan)
    (happr : loan.status = "approved") :
    (loan.amount < p → makePayment db lid p now = none) ∧
    (1 ≤ p → p = loan.amount → (makePayment db lid p now).isSome = true) ∧
    (∀ db', makePayment db lid p now = some db' →
      0 < p ∧ p ≤ loan.amount) := by
  unfold makePayment
  simp only [hfind]
  refine ⟨fun hgt => ?_, fun h1 h2 => ?_, fun db' hsome => ?_⟩
  · rw [if_neg]
    intro hc
    exact absurd hc.2.2 (not_le.mpr hgt)
  · rw [if_pos ⟨happr, h1, le_of_eq h2⟩]
    rfl
  · by_cases hc : loan.status = "approved" ∧ 1 ≤ p ∧ p ≤ loan.amount
    · exact ⟨lt_of_lt_of_le zero_lt_one hc.2.1, hc.2.2⟩
    · rw [if_neg hc] at hsome
      exact Option.noConfusion hsome

/-- The payment-bounds theorem instantiated on `dbW`: against the approved
loan with remaining amount 500, a payment of 600 is rejected and a payment
of 500 is accepted. -/
theorem makePayment_bounds_witness :
    makePayment dbW 1 600 0 = none ∧
      (makePayment dbW 1 500 0).isSome = true :=
  ⟨(makePayment_bounds dbW 1 loanW 600 0 (by decide) rfl).1 (by decide),
   (makePayment_bounds dbW 1 loanW 500 0 (by decide) rfl).2.1 (by decide)
     (by decide)⟩

/-- Evaluation fact: the payment of 300 against loan 1 of `dbW` on day 7
produces exactly `dbW2`. -/
lemma makePayment_dbW_eval : makePayment dbW 1 300 7 = some dbW2 := by
  unfold makePayment dbW dbW2 loanW
  norm_num [List.find?]

/-- Claim C5: an accepted payment of `p` appends exactly one payments row
(for that loan, with amount `p`), leaves users and profiles untouched,
rewrites the loans table only at the paid loan — whose amount drops by
exactly `p`, every other field and every other loan unchanged — and, across
every operation of the app, the payments table only ever grows by
appending, so payment rows are never updated or deleted afterward. -/
theorem makePayment_frame (db db' : DB) (lid : Nat) (loan : Loan) (p : ℚ)
    (now : Nat)
    (hfind : db.loans.find? (fun l => l.id == lid) = some loan)
    (hid : ∀ l ∈ db.loans, l.id = lid → l = loan)
    (hpay : makePayment db lid p now = some db') :
    db'.payments = db.payments ++
      [{ id := db.payments.length + 1, loan_id := lid, amount := p,
         payment_date := now }] ∧
    db'.users = db.users ∧
    db'.profiles = db.profiles ∧
    db'.loans = db.loans.map (fun l =>
      if l.id = lid then { l with amount := l.amount - p } else l) ∧
    (∀ l ∈ db.loans, l.id ≠ lid → l ∈ db'.loans) ∧
    (∀ db1 db2 : DB, Step db1 db2 →
      ∃ tail, db2.payments = db1.payments ++ tail) := by
  unfold makePayment at hpay
  simp only [hfind] at hpay
  split_ifs at hpay with hc
  · injection hpay with h2
    subst h2
    refine ⟨rfl, rfl, rfl, ?_, ?_, step_payments_append⟩
    · apply List.map_congr_left
      intro a ha
      by_cases h : a.id = lid
      · rw [if_pos h, if_pos h, hid a ha h]
      · rw [if_neg h, if_neg h]
    · intro l hl hne
      show l ∈ db.loans.map (fun l =>
        if l.id = lid then { l with amount := loan.amount - p } else l)
      exact List.mem_map.mpr ⟨l, hl, if_neg hne⟩

/-- The frame theorem instantiated on `dbW`: the payment of 300 appends one
payments row and leaves the users table unchanged. -/
theorem makePayment_frame_witness :
    dbW2.payments = dbW.payments ++
        [{ id := 1, loan_id := 1, amount := 300, payment_date := 7 }] ∧
      dbW2.users = dbW.users :=
  ⟨(makePayment_frame dbW dbW2 1 loanW 300 7 (by decide) (by decide)
      makePayment_dbW_eval).1,
   (makePayment_frame dbW dbW2 1 loanW 300 7 (by decide) (by decide)
      makePayment_dbW_eval).2.1⟩

/-- Claim C6: registering a username that already exists fails with
"Username already exists" and leaves the store unchanged (so a unique row
for the username stays unique), while a fresh username succeeds and inserts
exactly one row for it. -/
theorem register_user_unique (hash_password : String → String) (db : DB)
    (username password full_name email : String) (now : Nat) :
    ((∃ u ∈ db.users, u.username = username) →
      register_user hash_password db username password full_name email now =
        ((false, "Username already exists"), db)) ∧
    (db.users.countP (fun u => u.username == username) = 1 →
      ((register_user hash_password db username password full_name email
          now).2.users.countP (fun u => u.username == username)) = 1) ∧
    ((∀ u ∈ db.users, u.username ≠ username) →
      (register_user hash_password db username password full_name email
          now).1.1 = true ∧
      ∃ row, row.username = username ∧
        (register_user hash_password db username password full_name email
            now).2.users = db.users ++ [row] ∧
        ((register_user hash_password db username password full_name email
            now).2.users.countP (fun u => u.username == username)) = 1) := by
  unfold register_user
  refine ⟨fun hex => ?_, fun hcount => ?_, fun hfresh => ?_⟩
  · have hc : (db.users.any fun u => u.username == username) = true := by
      rw [List.any_eq_true]
      obtain ⟨u, hu, hname⟩ := hex
      exact ⟨u, hu, by simp [hname]⟩
    rw [if_pos hc]
  · have hc : (db.users.any fun u => u.username == username) = true := by
      rw [List.any_eq_true]
      have hpos : 0 < db.users.countP (fun u => u.username == username) := by
        omega
      exact List.countP_pos_iff.mp hpos
    rw [if_pos hc]
    exact hcount
  · have hc : (db.users.any fun u => u.username == username) = false := by
      rw [List.any_eq_false]
      intro u hu
      simpa using hfresh u hu
    rw [if_neg (by simp [hc])]
    have h0 : db.users.countP (fun u => u.username == username) = 0 :=
      List.countP_eq_zero.mpr (fun u hu => by simpa using hfresh u hu)
    have hfin : (db.users ++
        [{ id := db.users.length + 1, username := username,
           password := hash_password password, full_name := full_name,
           email := email, created_at := now }] : List User).countP
          (fun u => u.username == username) = 1 := by
      rw [List.countP_append, h0]
      simp [List.countP_cons]
    exact ⟨rfl, ⟨_, rfl, rfl, hfin⟩⟩

/-- The registration theorem instantiated on `dbAlice`: registering the
username "alice" a second time fails with the duplicate-username message
and leaves the store unchanged. -/
theorem register_user_unique_witness :
    register_user id dbAlice "alice" "pw2" "Alice B" "bob@mail.test" 1 =
      ((false, "Username already exists"), dbAlice) :=
  (register_user_unique id dbAlice "alice" "pw2" "Alice B" "bob@mail.test"
    1).1 (by decide)

end LoanApp
